import Mathlib

/-!
Verification development for the Heliosinger utility scripts.

Shallow embedding of the two Python scripts:
- scripts/check_stream_health.py  (the "Health Poller")
- scripts/obs_setup_helper.py     (the "Setup Checker")

Network, subprocess and filesystem effects are modelled by explicit
environment/outcome values handed to the embedded functions; printed
output is modelled as returned lists of lines where a claim needs it.
-/

namespace Heliosinger

/-! ## Embedding of scripts/check_stream_health.py -/

/-- Outcome of `urllib.request.urlopen` as observed by the scripts: either a
response object carrying a status code, a raised `urllib.error.URLError`
(with `str(e)` recorded), or any other raised exception. -/
inductive HttpOutcome where
  | status (code : Nat)
  | urlError (msg : String)
  | otherError (msg : String)
  deriving DecidableEq, Repr

/-- `STREAM_URL` constant of check_stream_health.py. -/
def STREAM_URL : String := "http://localhost:5173/stream"

/-- `HEALTH_CHECK_INTERVAL = 30` seconds. -/
def HEALTH_CHECK_INTERVAL : ℚ := 30

/-- `check_stream_accessible()`: returns a pair (bool, message).
Status 200 gives `(True, …)`; any other status gives `(False, …status…)`;
`URLError` and any other exception give `(False, …str(e)…)`. -/
def check_stream_accessible (r : HttpOutcome) : Bool × String :=
  match r with
  | .status c =>
      if c = 200 then (true, "Stream page is accessible")
      else (false, "Stream returned status " ++ toString c)
  | .urlError e => (false, "Cannot connect to stream: " ++ e)
  | .otherError e => (false, "Error checking stream: " ++ e)

/-- The fixed endpoint list of `check_api_endpoints()`. -/
def apiEndpointList : List String :=
  ["http://localhost:5173/api/space-weather/comprehensive",
   "http://localhost:5173/api/solar-wind/current"]

/-- Outcome of the GET performed for one API endpoint: a response status, or
a raised exception with `str(e)` recorded. -/
inductive ApiOutcome where
  | status (code : Nat)
  | exc (msg : String)
  deriving DecidableEq, Repr

/-- The string recorded for one endpoint by `check_api_endpoints()`:
"OK" on status 200, "Status {code}" otherwise, and on exception
"Error: " followed by `str(e)[:50]`. -/
def apiResult (o : ApiOutcome) : String :=
  match o with
  | .status c => if c = 200 then "OK" else "Status " ++ toString c
  | .exc e => "Error: " ++ e.take 50

/-- `check_api_endpoints()`: builds the `results` dict, one entry per
endpoint of the fixed list, in order.  The network is modelled by a map
from endpoint URL to the GET outcome at that URL. -/
def check_api_endpoints (world : String → ApiOutcome) : List (String × String) :=
  apiEndpointList.map (fun ep => (ep, apiResult (world ep)))

/-- One step of the `consecutive_failures` counter in `main()`:
reset to 0 when the stream was accessible, otherwise `+= 1`.
The counter is a Python int, modelled as `ℤ`. -/
def stepCounter (n : ℤ) (accessible : Bool) : ℤ :=
  if accessible then 0 else n + 1

/-- Whether the advisory ("Multiple consecutive failures detected!") is
printed in an iteration: only inside the failure branch, after the
increment, when the counter has reached 3. -/
def advisoryPrinted (n : ℤ) (accessible : Bool) : Bool :=
  if accessible then false else decide (3 ≤ n + 1)

/-- Counter value after a whole sequence of iterations, starting from a
given value (`main()` starts it at 0). -/
def runCounter (init : ℤ) (oks : List Bool) : ℤ :=
  oks.foldl stepCounter init

/-- Python float modulo for a positive modulus: `x % m = x - m * floor (x / m)`.
Wall-clock values are modelled as rationals. -/
def pymod (x m : ℚ) : ℚ := x - m * (⌊x / m⌋ : ℤ)

/-- The time-modulo gate of `main()`:
`time.time() % (HEALTH_CHECK_INTERVAL * 2) < HEALTH_CHECK_INTERVAL`. -/
def secondaryGate (now : ℚ) : Bool :=
  decide (pymod now (HEALTH_CHECK_INTERVAL * 2) < HEALTH_CHECK_INTERVAL)

/-- The external observations one loop iteration consumes: the outcome of
the primary GET, the wall-clock reading at the gate, and the per-endpoint
outcomes of the secondary GETs (consulted only if the gate passes). -/
structure IterEvent where
  primary : HttpOutcome
  now : ℚ
  secondaries : String → ApiOutcome

/-- What one iteration prints / does, beyond updating the counter. -/
structure IterOutput where
  primaryStatus : String
  primaryMessage : String
  advisory : Bool
  secondaryLines : Option (List (String × String))

/-- One iteration of the `while True` body of the Health Poller's `main()`:
probe the stream, update the counter, possibly print the advisory, then
run the secondary probes when the time gate passes. -/
def pollIter (n : ℤ) (ev : IterEvent) : ℤ × IterOutput :=
  let res := check_stream_accessible ev.primary
  let n' := stepCounter n res.1
  { fst := n'
    snd :=
      { primaryStatus := if res.1 then "OK" else "ERROR"
        primaryMessage := res.2
        advisory := advisoryPrinted n res.1
        secondaryLines :=
          if secondaryGate ev.now then some (check_api_endpoints ev.secondaries)
          else none } }

/-- Input stream of the Health Poller's loop: each element is either an
ordinary iteration or a `KeyboardInterrupt` delivered at the top of an
iteration. -/
inductive LoopInput where
  | iter (ev : IterEvent)
  | interrupt

/-- Result of running the loop against a finite prefix of its input
stream: still running (with the current counter), or exited via
`sys.exit(code)`. -/
inductive LoopResult where
  | running (n : ℤ)
  | exited (code : Nat)

/-- The Health Poller's `try: while True: … except KeyboardInterrupt:
sys.exit(0)` loop: iterations never leave the loop; an interrupt exits
with status 0. -/
def runLoop (n : ℤ) : List LoopInput → LoopResult
  | [] => .running n
  | .interrupt :: _ => .exited 0
  | .iter ev :: rest => runLoop (pollIter n ev).1 rest

/-- A concrete iteration event: 200 response, clock reading 10. -/
def evOk10 : IterEvent :=
  { primary := .status 200, now := 10, secondaries := fun _ => .status 200 }

/-- A concrete iteration event: connection error, clock reading 10. -/
def evErr10 : IterEvent :=
  { primary := .urlError "refused", now := 10, secondaries := fun _ => .exc "down" }

/-- A concrete API world: the solar-wind endpoint answers 200, every
other URL raises with a 60-character error text. -/
def apiWorldMixed : String → ApiOutcome := fun ep =>
  if ep == "http://localhost:5173/api/solar-wind/current" then .status 200
  else .exc "connection to host localhost port 5173 timed out after 5 s!"

/-- String containment, as "the characters of `sub` occur consecutively
inside `s`". -/
def strContains (s sub : String) : Prop := sub.toList <:+: s.toList

instance (s sub : String) : Decidable (strContains s sub) :=
  inferInstanceAs (Decidable (sub.toList <:+: s.toList))

/-! ## Embedding of scripts/obs_setup_helper.py -/

/-- A Python value as stored in the Setup Checker's `results` dict:
either `None` (a check fell off the end of its body) or a bool. -/
inductive PyVal where
  | none_
  | bool (b : Bool)
  deriving DecidableEq, Repr

/-- Python truthiness of such a value, as used by `all(results.values())`:
`None` is falsy. -/
def PyVal.truthy : PyVal → Bool
  | .none_ => false
  | .bool b => b

/-- The `obs_paths` list of `check_obs_installed()`. -/
def obs_paths : List String :=
  ["/Applications/OBS.app", "/Applications/OBS Studio.app", "/usr/local/bin/obs"]

/-- The `for path in obs_paths: if os.path.exists(path): return True` loop. -/
def findInstalled (pathExists : String → Bool) : List String → Bool
  | [] => false
  | p :: rest => if pathExists p then true else findInstalled pathExists rest

/-- `check_obs_installed()`: True as soon as one known path exists, else
False.  The filesystem is modelled by the `pathExists` oracle. -/
def check_obs_installed (pathExists : String → Bool) : PyVal :=
  .bool (findInstalled pathExists obs_paths)

/-- Outcome of a `subprocess.run` call: captured stdout, or a raised
exception with `str(e)` recorded. -/
inductive SubprocOutcome where
  | ok (stdout : String)
  | raises (msg : String)

/-- `check_hardware_encoding()`: True iff `"Metal" in result.stdout`;
any exception gives False. -/
def check_hardware_encoding (r : SubprocOutcome) : PyVal :=
  match r with
  | .ok out => if strContains out "Metal" then .bool true else .bool false
  | .raises _ => .bool false

/-- Outcome of the `urlopen('http://localhost:5173/stream', …)` call inside
`check_dev_server()`: a response with a status, or a raised exception. -/
inductive GetOutcome where
  | status (code : Nat)
  | raises (msg : String)
  deriving DecidableEq, Repr

/-- Environment observed by `check_dev_server()`: the `connect_ex` result,
the GET outcome (consulted only when the connect succeeded), and whether
the socket operations themselves raised. -/
structure DevServerEnv where
  connectResult : ℤ
  get : GetOutcome
  socketRaises : Option String

/-- `check_dev_server()`, returning the Python return value together with
the (level, text) lines it prints.  Note the fall-through: when the socket
connects and the GET returns a status other than 200, no `return` statement
is reached and no line is printed, so the function yields `None`. -/
def check_dev_server (env : DevServerEnv) : PyVal × List (String × String) :=
  match env.socketRaises with
  | some e => (.bool false, [("ERROR", "Could not check dev server: " ++ e)])
  | none =>
    if env.connectResult = 0 then
      match env.get with
      | .status c =>
          if c = 200 then
            (.bool true, [("SUCCESS", "Dev server is running and stream page is accessible")])
          else
            (.none_, [])
      | .raises _ =>
          (.bool false,
            [("WARNING", "Dev server is running but /stream page may not be accessible")])
    else
      (.bool false,
        [("ERROR", "Dev server is not running on port 5173"),
         ("INFO", "Start with: cd /Volumes/VIXinSSD/SolarChime && npm run dev")])

/-- Environment of `check_obs_config()`: whether the config base directory
and the profiles directory exist, and the profile listing. -/
structure ObsConfigEnv where
  baseExists : Bool
  profilesExists : Bool
  profiles : List String

/-- `check_obs_config()`: False when the config directory is missing,
True otherwise (the profile count is only printed). -/
def check_obs_config (env : ObsConfigEnv) : PyVal :=
  if env.baseExists then .bool true else .bool false

/-- Environment of `check_system_resources()`: only whether something in
its body raised matters for its value. -/
structure SysResEnv where
  raises : Option String

/-- `check_system_resources()`: its body only prints informational lines
and has no `return` statement on any path — the `try` body falls off the
end, and the `except` handler prints a warning and also falls off — so
the Python function returns `None` on every execution. -/
def check_system_resources (env : SysResEnv) : PyVal :=
  match env.raises with
  | some _ => .none_
  | none => .none_

/-- Outcome of invoking one check function from `main()`'s loop: the value
it returned, or an exception it let escape. -/
inductive CheckOutcome where
  | value (v : PyVal)
  | raises (msg : String)

/-- The `for name, check_func in checks.items()` loop of `main()`
(obs_setup_helper.py lines 261-268): each check's value is recorded; an
escaping exception is printed as "Error checking {name}: {e}" and the
check is recorded as `False`; the loop always continues to the next
check.  Returns (results in insertion order, error lines printed). -/
def runChecks : List (String × CheckOutcome) → List (String × PyVal) × List String
  | [] => ([], [])
  | (n, .value v) :: rest =>
      let r := runChecks rest
      ((n, v) :: r.1, r.2)
  | (n, .raises m) :: rest =>
      let r := runChecks rest
      ((n, .bool false) :: r.1, ("Error checking " ++ n ++ ": " ++ m) :: r.2)

/-- `all_passed = all(results.values())` with Python truthiness. -/
def allPassed (results : List (String × PyVal)) : Bool :=
  results.all (fun r => r.2.truthy)

/-- The summary line printed by `main()`. -/
def summaryLine (results : List (String × PyVal)) : String :=
  if allPassed results then "All checks passed! You're ready to stream."
  else "Some checks failed. Review the issues above."

/-- The whole external world a run of the Setup Checker observes. -/
structure World where
  pathExists : String → Bool
  displayData : SubprocOutcome
  devServer : DevServerEnv
  obsConfig : ObsConfigEnv
  sysRes : SysResEnv

/-- The `checks` dict of `main()`, applied to a world: the five named
checks in their fixed order, none of which lets an exception escape in
this model (each embedded check already maps its exceptions to a value). -/
def mainChecks (w : World) : List (String × CheckOutcome) :=
  [("OBS Installation", .value (check_obs_installed w.pathExists)),
   ("Hardware Encoding", .value (check_hardware_encoding w.displayData)),
   ("Dev Server", .value (check_dev_server w.devServer).1),
   ("OBS Configuration", .value (check_obs_config w.obsConfig)),
   ("System Resources", .value (check_system_resources w.sysRes))]

/-- The `results` dict at the end of `main()`'s check loop. -/
def mainResults (w : World) : List (String × PyVal) :=
  (runChecks (mainChecks w)).1

/-! ### The JSON settings template -/

/-- Minimal JSON values, enough for the settings template. -/
inductive Json where
  | str (s : String)
  | num (n : Nat)
  | bool (b : Bool)
  | obj (fields : List (String × Json))

/-- The `settings` literal of `generate_obs_settings_template()`. -/
def obsSettings : Json :=
  .obj
    [("video", .obj
        [("base_resolution", .str "1920x1080"),
         ("output_resolution", .str "1920x1080"),
         ("fps", .num 30)]),
     ("output", .obj
        [("mode", .str "simple"),
         ("video_bitrate", .num 6000),
         ("audio_bitrate", .num 160),
         ("encoder", .str "Apple VT H264 Hardware Encoder")]),
     ("audio", .obj
        [("sample_rate", .num 48000),
         ("channels", .num 2)]),
     ("browser_source", .obj
        [("url", .str "http://localhost:5173/stream"),
         ("width", .num 1920),
         ("height", .num 1080),
         ("fps", .num 30),
         ("shutdown_when_not_visible", .bool true),
         ("refresh_when_scene_active", .bool true)])]

/-- `generate_obs_settings_template()` as a transformer of the template
file's contents: `open(path, 'w')` + `json.dump` replaces whatever was
there before with the fixed settings document. -/
def generate_obs_settings_template (_prior : Option Json) : Option Json :=
  some obsSettings

/-- Top-level keys of a JSON object. -/
def topKeys : Json → List String
  | .obj fields => fields.map Prod.fst
  | _ => []

/-- Keys of the object stored under top-level key `k`. -/
def subKeys (j : Json) (k : String) : List String :=
  match j with
  | .obj fields =>
      match fields.lookup k with
      | some v => topKeys v
      | none => []
  | _ => []

/-- A concrete world in which every check other than the resource
inventory passes: OBS is installed, `system_profiler` reports Metal, the
dev server answers 200, the OBS config directory exists, and nothing
raises. -/
def goodWorld : World :=
  { pathExists := fun _ => true,
    displayData := .ok "Chipset Model: Apple M2 Metal Support: Metal 3",
    devServer := { connectResult := 0, get := .status 200, socketRaises := none },
    obsConfig := { baseExists := true, profilesExists := true, profiles := [] },
    sysRes := { raises := none } }

/-! ## Theorems -/

/-- C2: `check_stream_accessible` returns true exactly on a 200 response;
every other status and every raised error yields false, with the status
code embedded in the message for a non-200 response, and every truncation
of the underlying error text contained in the message for a failure. -/
theorem C2_probe_primary_classification (r : HttpOutcome) :
    ((check_stream_accessible r).1 = true ↔ r = .status 200) ∧
    (∀ c, r = .status c → c ≠ 200 →
      (check_stream_accessible r).1 = false ∧
      strContains (check_stream_accessible r).2 (toString c)) ∧
    (∀ e, (r = .urlError e ∨ r = .otherError e) →
      (check_stream_accessible r).1 = false ∧
      ∀ n, (e.toList.take n) <:+: (check_stream_accessible r).2.toList) := by
  refine ⟨?_, ?_, ?_⟩
  · cases r with
    | status c =>
        by_cases h : c = 200 <;> simp [check_stream_accessible, h]
    | urlError e => simp [check_stream_accessible]
    | otherError e => simp [check_stream_accessible]
  · rintro c rfl hc
    refine ⟨by simp [check_stream_accessible, hc], ?_⟩
    unfold strContains
    simp only [check_stream_accessible, if_neg hc, String.toList, String.data_append]
    exact (List.suffix_append _ _).isInfix
  · rintro e (rfl | rfl) <;>
      refine ⟨by simp [check_stream_accessible], fun n => ?_⟩ <;>
      · simp only [check_stream_accessible, String.toList, String.data_append]
        exact ((List.take_prefix n e.data).isInfix).trans
          (List.suffix_append _ _).isInfix

/-- Witness for C2 at concrete inputs: a 404 response and a connection
error with a long error text. -/
theorem C2_probe_primary_classification_witness :
    ((check_stream_accessible (.status 404)).1 = false ∧
      strContains (check_stream_accessible (.status 404)).2 (toString 404)) ∧
    ((check_stream_accessible (.urlError "connection refused by peer")).1 = false ∧
      ∀ n, (("connection refused by peer" : String).toList.take n) <:+:
        (check_stream_accessible (.urlError "connection refused by peer")).2.toList) :=
  ⟨(C2_probe_primary_classification (.status 404)).2.1 404 rfl (by decide),
   (C2_probe_primary_classification (.urlError "connection refused by peer")).2.2
      "connection refused by peer" (Or.inl rfl)⟩

/-- Auxiliary: running the counter over `k` straight failures adds `k`. -/
theorem runCounter_replicate_false (k : Nat) (init : ℤ) :
    runCounter init (List.replicate k false) = init + k := by
  induction k generalizing init with
  | zero => simp [runCounter]
  | succ m ih =>
      simp only [List.replicate_succ, runCounter, List.foldl_cons] at *
      rw [ih (stepCounter init false)]
      simp [stepCounter]
      ring

/-- Auxiliary: the counter stays nonnegative from a nonnegative start. -/
theorem runCounter_nonneg (oks : List Bool) (init : ℤ) (h : 0 ≤ init) :
    0 ≤ runCounter init oks := by
  induction oks generalizing init with
  | nil => simpa [runCounter]
  | cons b rest ih =>
      simp only [runCounter, List.foldl_cons]
      refine ih (stepCounter init b) ?_
      cases b
      · simp only [stepCounter]
        omega
      · simp [stepCounter]

/-- C3: the consecutive-failure counter resets to 0 on an OK result and
increments by exactly 1 on an ERROR result; starting from `main()`'s
initial value 0 it is never negative after any sequence of iterations and
exceeds every bound on some sequence; and the advisory line is printed in
an iteration exactly when the counter's value in that iteration is ≥ 3. -/
theorem C3_failure_counter (n : ℤ) (oks : List Bool) (B : ℤ) :
    stepCounter n true = 0 ∧
    stepCounter n false = n + 1 ∧
    0 ≤ runCounter 0 oks ∧
    (∃ tr : List Bool, B < runCounter 0 tr) ∧
    (∀ ok, advisoryPrinted n ok = true ↔ 3 ≤ stepCounter n ok) := by
  refine ⟨rfl, rfl, runCounter_nonneg oks 0 le_rfl, ?_, ?_⟩
  · refine ⟨List.replicate (B.toNat + 1) false, ?_⟩
    rw [runCounter_replicate_false]
    push_cast
    omega
  · intro ok
    cases ok <;> simp [advisoryPrinted, stepCounter]

/-- C4: whether an iteration runs the secondary probes equals the
time-modulo gate `now % (2 × interval) < interval` alone; two iterations
at the same clock reading fire together or not at all, whatever their
counters and primary outcomes. -/
theorem C4_secondary_gate_independent (n n' : ℤ) (ev ev' : IterEvent)
    (h : ev.now = ev'.now) :
    ((pollIter n ev).2.secondaryLines.isSome
        = decide (pymod ev.now (2 * HEALTH_CHECK_INTERVAL) < HEALTH_CHECK_INTERVAL)) ∧
    ((pollIter n ev).2.secondaryLines.isSome
        = (pollIter n' ev').2.secondaryLines.isSome) := by
  have key : ∀ (m : ℤ) (e : IterEvent),
      (pollIter m e).2.secondaryLines.isSome
        = decide (pymod e.now (2 * HEALTH_CHECK_INTERVAL) < HEALTH_CHECK_INTERVAL) := by
    intro m e
    rw [mul_comm]
    simp only [pollIter, secondaryGate]
    by_cases hg : pymod e.now (HEALTH_CHECK_INTERVAL * 2) < HEALTH_CHECK_INTERVAL <;>
      simp [hg]
  refine ⟨key n ev, ?_⟩
  rw [key n ev, key n' ev', h]

/-- Witness for C4: two iterations at clock reading 10, one with a 200
primary response, one with a connection error, and different counters. -/
theorem C4_secondary_gate_independent_witness :
    ((pollIter 0 evOk10).2.secondaryLines.isSome
      = decide (pymod evOk10.now (2 * HEALTH_CHECK_INTERVAL) < HEALTH_CHECK_INTERVAL)) ∧
    ((pollIter 0 evOk10).2.secondaryLines.isSome
      = (pollIter 7 evErr10).2.secondaryLines.isSome) :=
  C4_secondary_gate_independent 0 7 evOk10 evErr10 rfl

/-- C5: `check_api_endpoints` records one entry per URL of its fixed list,
in order; the entry recorded for a URL is a function of the GET outcome at
that URL alone, so a failure at one URL cannot change another URL's entry;
and an exception's text enters the recorded message truncated to its first
50 characters. -/
theorem C5_api_endpoints_independent (w w' : String → ApiOutcome) :
    ((check_api_endpoints w).map Prod.fst = apiEndpointList) ∧
    (∀ ep, ep ∈ apiEndpointList →
        (check_api_endpoints w).lookup ep = some (apiResult (w ep))) ∧
    (∀ ep, ep ∈ apiEndpointList → w ep = w' ep →
        (check_api_endpoints w).lookup ep = (check_api_endpoints w').lookup ep) ∧
    (∀ ep e, ep ∈ apiEndpointList → w ep = .exc e →
        (check_api_endpoints w).lookup ep = some ("Error: " ++ e.take 50) ∧
        (e.take 50).length ≤ 50) := by
  have lu : ∀ (u : String → ApiOutcome) (ep : String), ep ∈ apiEndpointList →
      (check_api_endpoints u).lookup ep = some (apiResult (u ep)) := by
    intro u ep hep
    fin_cases hep <;> simp [check_api_endpoints, apiEndpointList, List.lookup]
  refine ⟨rfl, lu w, ?_, ?_⟩
  · intro ep hep hsame
    rw [lu w ep hep, lu w' ep hep, hsame]
  · intro ep e hep hexc
    refine ⟨by rw [lu w ep hep, hexc, apiResult], ?_⟩
    rw [← String.length_data, String.data_take]
    simp

/-- Witness for C5 at a concrete world: the first endpoint raises with a
60-character error text, the second returns 200. -/
theorem C5_api_endpoints_independent_witness :
    (List.lookup "http://localhost:5173/api/space-weather/comprehensive"
        (check_api_endpoints apiWorldMixed)
      = some ("Error: " ++
          ("connection to host localhost port 5173 timed out after 5 s!" : String).take 50)) ∧
    ((("connection to host localhost port 5173 timed out after 5 s!" : String).take 50).length
      ≤ 50) :=
  (C5_api_endpoints_independent apiWorldMixed (fun _ => .status 200)).2.2.2
    "http://localhost:5173/api/space-weather/comprehensive"
    "connection to host localhost port 5173 timed out after 5 s!"
    (by simp [apiEndpointList]) (by decide)

/-- C8: the polling loop never exits on any sequence of probe iterations —
after consuming any interrupt-free input it is still running — and when it
does exit, the exit status is 0 and an interrupt was among the inputs. -/
theorem C8_loop_exits_only_on_interrupt (inputs : List LoopInput) (n : ℤ) (c : Nat) :
    ((∀ i ∈ inputs, i ≠ LoopInput.interrupt) →
        ∃ n', runLoop n inputs = .running n') ∧
    (runLoop n inputs = .exited c → c = 0 ∧ LoopInput.interrupt ∈ inputs) := by
  induction inputs generalizing n with
  | nil =>
      refine ⟨fun _ => ⟨n, rfl⟩, fun h => ?_⟩
      simp [runLoop] at h
  | cons i rest ih =>
      cases i with
      | interrupt =>
          refine ⟨fun h => absurd rfl (h .interrupt (by simp)), fun h => ?_⟩
          simp only [runLoop] at h
          cases h
          exact ⟨rfl, by simp⟩
      | iter ev =>
          refine ⟨fun h => ?_, fun h => ?_⟩
          · exact (ih (pollIter n ev).1).1 (fun j hj => h j (by simp [hj]))
          · simp only [runLoop] at h
            rcases (ih (pollIter n ev).1).2 h with ⟨hc, hm⟩
            exact ⟨hc, by simp [hm]⟩

/-- Witness for C8: an interrupt-free run keeps running; the run
consisting of one iteration and then an interrupt exits with status 0. -/
theorem C8_loop_exits_only_on_interrupt_witness :
    (∃ n', runLoop 0 [.iter evErr10] = .running n') ∧
    (0 = 0 ∧ LoopInput.interrupt ∈ ([.iter evOk10, .interrupt] : List LoopInput)) :=
  ⟨(C8_loop_exits_only_on_interrupt [.iter evErr10] 0 0).1
      (by intro i hi
          simp only [List.mem_singleton] at hi
          subst hi
          intro hcon
          cases hcon),
   (C8_loop_exits_only_on_interrupt [.iter evOk10, .interrupt] 0 0).2 rfl⟩

/-- Auxiliary: the check loop records a name for every check, in order. -/
theorem runChecks_names (checks : List (String × CheckOutcome)) :
    (runChecks checks).1.map Prod.fst = checks.map Prod.fst := by
  induction checks with
  | nil => rfl
  | cons c rest ih =>
      rcases c with ⟨nm, co⟩
      cases co <;> simp [runChecks, ih]

/-- Auxiliary: a check whose function raised is recorded as `False` and
its error line is printed. -/
theorem runChecks_raises_recorded (checks : List (String × CheckOutcome))
    (nm msg : String) (h : (nm, CheckOutcome.raises msg) ∈ checks) :
    (nm, PyVal.bool false) ∈ (runChecks checks).1 ∧
    ("Error checking " ++ nm ++ ": " ++ msg) ∈ (runChecks checks).2 := by
  induction checks with
  | nil => cases h
  | cons c rest ih =>
      rcases List.mem_cons.mp h with heq | htail
      · subst heq
        exact ⟨by simp [runChecks], by simp [runChecks]⟩
      · rcases c with ⟨n2, co⟩
        have hr := ih htail
        cases co with
        | value v =>
            exact ⟨List.mem_cons_of_mem _ hr.1, hr.2⟩
        | raises m2 =>
            exact ⟨List.mem_cons_of_mem _ hr.1, List.mem_cons_of_mem _ hr.2⟩

/-- C7: `main()`'s check loop records every check by name; a check that
raises is recorded as failed with its exception message printed, and the
loop never aborts — for every outcome of every check the run reaches the
summary, which is always one of the two summary lines. -/
theorem C7_check_loop_catches_exceptions (checks : List (String × CheckOutcome)) :
    ((runChecks checks).1.map Prod.fst = checks.map Prod.fst) ∧
    (∀ nm msg, (nm, CheckOutcome.raises msg) ∈ checks →
        (nm, PyVal.bool false) ∈ (runChecks checks).1 ∧
        ("Error checking " ++ nm ++ ": " ++ msg) ∈ (runChecks checks).2) ∧
    (summaryLine (runChecks checks).1 = "All checks passed! You're ready to stream." ∨
      summaryLine (runChecks checks).1 = "Some checks failed. Review the issues above.") := by
  refine ⟨runChecks_names checks, fun nm msg h => runChecks_raises_recorded checks nm msg h, ?_⟩
  unfold summaryLine
  by_cases hp : allPassed (runChecks checks).1 <;> simp [hp]

/-- Witness for C7: a two-check run whose second check raises. -/
theorem C7_check_loop_catches_exceptions_witness :
    ("B", PyVal.bool false) ∈
      (runChecks [("A", .value (.bool true)), ("B", .raises "boom")]).1 ∧
    ("Error checking " ++ "B" ++ ": " ++ "boom") ∈
      (runChecks [("A", .value (.bool true)), ("B", .raises "boom")]).2 :=
  (C7_check_loop_catches_exceptions
      [("A", .value (.bool true)), ("B", .raises "boom")]).2.1
    "B" "boom" (by simp)

/-- Auxiliary: `check_system_resources` yields `None` on every execution. -/
theorem check_system_resources_eq_none (env : SysResEnv) :
    check_system_resources env = PyVal.none_ := by
  rcases hr : env.raises with _ | e <;> simp [check_system_resources, hr]

/-- C9: the `System Resources` entry of the results dict is `None` on
every run — never a boolean, always falsy — so `all(results.values())` is
`False` on every run and the all-passed summary branch is unreachable:
the "Some checks failed" line is printed whatever the other checks did. -/
theorem C9_all_passed_unreachable (w : World) :
    check_system_resources w.sysRes = PyVal.none_ ∧
    List.lookup "System Resources" (mainResults w) = some PyVal.none_ ∧
    allPassed (mainResults w) = false ∧
    summaryLine (mainResults w) = "Some checks failed. Review the issues above." := by
  have hnone := check_system_resources_eq_none w.sysRes
  have hlu : List.lookup "System Resources" (mainResults w) = some PyVal.none_ := by
    simp [mainResults, mainChecks, runChecks, List.lookup, hnone]
  have hall : allPassed (mainResults w) = false := by
    simp [mainResults, mainChecks, runChecks, allPassed, hnone, PyVal.truthy]
  exact ⟨hnone, hlu, hall, by simp [summaryLine, hall]⟩

/-- C1 is refuted by the code: in a world where all four boolean checks
pass, `all(results.values())` still evaluates over the `None` recorded
for the resource inventory, so the aggregate is `False` and the
"Some checks failed" summary is printed, not the all-passed one. -/
theorem C1_resource_inventory_gates_aggregate :
    check_obs_installed goodWorld.pathExists = PyVal.bool true ∧
    check_hardware_encoding goodWorld.displayData = PyVal.bool true ∧
    (check_dev_server goodWorld.devServer).1 = PyVal.bool true ∧
    check_obs_config goodWorld.obsConfig = PyVal.bool true ∧
    allPassed (mainResults goodWorld) = false ∧
    summaryLine (mainResults goodWorld) = "Some checks failed. Review the issues above." := by
  decide

/-- C10: `check_dev_server` returns True exactly when the TCP connect
succeeded and the GET returned status 200; and when the connect succeeds
and the GET yields a 2xx status other than 200, every `return` is missed:
the function yields `None` and prints no line at all. -/
theorem C10_dev_server_fallthrough (env : DevServerEnv) (c : Nat) :
    ((check_dev_server env).1 = PyVal.bool true ↔
      env.socketRaises = none ∧ env.connectResult = 0 ∧ env.get = .status 200) ∧
    (env.socketRaises = none → env.connectResult = 0 → env.get = .status c →
      200 ≤ c → c < 300 → c ≠ 200 →
      check_dev_server env = (PyVal.none_, [])) := by
  obtain ⟨cr, g, sr⟩ := env
  constructor
  · cases sr with
    | some e => simp [check_dev_server]
    | none =>
        by_cases hcr : cr = 0
        · cases g with
          | status c2 =>
              by_cases hc2 : c2 = 200
              · subst hc2
                simp [check_dev_server, hcr]
              · simp [check_dev_server, hcr, hc2]
          | raises m => simp [check_dev_server, hcr]
        · simp [check_dev_server, hcr]
  · rintro hsr hcr hg _ _ hne
    simp only at hsr hcr hg
    subst hsr hg
    simp [check_dev_server, hcr, hne]

/-- Witness for C10: socket connects and the GET answers 201. -/
theorem C10_dev_server_fallthrough_witness :
    check_dev_server { connectResult := 0, get := .status 201, socketRaises := none }
      = (PyVal.none_, []) :=
  (C10_dev_server_fallthrough
      { connectResult := 0, get := .status 201, socketRaises := none } 201).2
    rfl rfl rfl (by decide) (by decide) (by decide)

/-- C6 fails as stated: the settings document written on every run has
exactly four top-level keys — video, output, audio, browser_source — not
five. -/
theorem C6_five_keys_counterexample :
    generate_obs_settings_template none = some obsSettings ∧
    (topKeys obsSettings).length = 4 ∧ ¬((topKeys obsSettings).length = 5) := by
  exact ⟨rfl, rfl, by decide⟩

/-- C6 amended: on every invocation, whatever the file held before, the
Setup Checker replaces it with the fixed settings document, whose
top-level keys are exactly the four keys video, output, audio,
browser_source, with the documented sub-fields. -/
theorem C6_settings_overwrite_roundtrip (prior : Option Json) :
    generate_obs_settings_template prior = some obsSettings ∧
    topKeys obsSettings = ["video", "output", "audio", "browser_source"] ∧
    subKeys obsSettings "video" = ["base_resolution", "output_resolution", "fps"] ∧
    subKeys obsSettings "output" = ["mode", "video_bitrate", "audio_bitrate", "encoder"] ∧
    subKeys obsSettings "audio" = ["sample_rate", "channels"] ∧
    subKeys obsSettings "browser_source"
      = ["url", "width", "height", "fps", "shutdown_when_not_visible",
         "refresh_when_scene_active"] := by
  refine ⟨rfl, rfl, ?_, ?_, ?_, ?_⟩ <;> rfl

end Heliosinger
